import Mathlib

/-!
Verification of the physics core of `bouncing_ball_hexagon.py`: a disc
bouncing inside a rotating regular hexagon under gravity, with restitution
and tangential friction at the walls.  The Python floats are modelled by
real numbers; every definition below is a direct transcription of the
corresponding source function or of the inline code in `main`.
-/

namespace BouncingBall

/-- A 2D vector, as the source's `(x, y)` tuples. -/
abbrev Vec2 := ℝ × ℝ

/-- Source `vector_length`: `math.sqrt(v[0]*v[0] + v[1]*v[1])`. -/
noncomputable def vector_length (v : Vec2) : ℝ :=
  Real.sqrt (v.1 * v.1 + v.2 * v.2)

/-- The source's module constant `hex_sides = 6`. -/
def hex_sides : ℕ := 6

/-- Source `get_hexagon_vertices(center, radius, base_angle)`: vertex `i`
is at angle `base_angle + i * 2 * pi / hex_sides`, at distance `radius`
from `center`. -/
noncomputable def get_hexagon_vertices (center : Vec2) (radius : ℝ)
    (base_angle : ℝ) : List Vec2 :=
  (List.range hex_sides).map fun i =>
    let angle := base_angle + i * 2 * Real.pi / hex_sides
    (center.1 + radius * Real.cos angle, center.2 + radius * Real.sin angle)

/-- Source `closest_point_on_segment(a, b, p)`: project `p` onto the line
through `a, b`, clamp the parameter to `[0,1]`; if the segment is
degenerate (`ab_len_sq == 0`) return `a`. -/
noncomputable def closest_point_on_segment (a b p : Vec2) : Vec2 :=
  let abx := b.1 - a.1
  let aby := b.2 - a.2
  let ab_len_sq := abx * abx + aby * aby
  if ab_len_sq = 0 then a
  else
    let t := ((p.1 - a.1) * abx + (p.2 - a.2) * aby) / ab_len_sq
    let t' := max 0 (min 1 t)
    (a.1 + t' * abx, a.2 + t' * aby)

/-- Source `reflect_velocity(ball_v, wall_n, v_rel)`.  The module globals
`restitution` and `wall_friction` are passed explicitly.  Note the source
computes `normal_component` as the COMPONENTWISE product
`(v_rel_new[0]*wall_n[0], v_rel_new[1]*wall_n[1])`, not the projection
`(v_rel_new · n) n` its comment describes. -/
noncomputable def reflect_velocity (restitution wall_friction : ℝ)
    (ball_v wall_n v_rel : Vec2) : Vec2 :=
  let v_dot_n := v_rel.1 * wall_n.1 + v_rel.2 * wall_n.2
  if 0 ≤ v_dot_n then
    ball_v
  else
    let factor := (1 + restitution) * v_dot_n
    let v_rel_new : Vec2 :=
      (v_rel.1 - factor * wall_n.1, v_rel.2 - factor * wall_n.2)
    let normal_component : Vec2 :=
      (v_rel_new.1 * wall_n.1, v_rel_new.2 * wall_n.2)
    let tangential_component : Vec2 :=
      (v_rel_new.1 - normal_component.1, v_rel_new.2 - normal_component.2)
    let tangential_component' : Vec2 :=
      (tangential_component.1 * wall_friction,
       tangential_component.2 * wall_friction)
    (normal_component.1 + tangential_component'.1,
     normal_component.2 + tangential_component'.2)

/-- The physical and geometric constants of the simulation (module-level
constants in the source: `hex_center`, `hex_radius`, `angular_speed`,
`ball_radius`, `gravity`, `restitution`, `wall_friction`, `dt`). -/
structure Params where
  hex_center : Vec2
  hex_radius : ℝ
  angular_speed : ℝ
  ball_radius : ℝ
  gravity : ℝ
  restitution : ℝ
  wall_friction : ℝ
  dt : ℝ

/-- The mutable simulation state (`hex_angle`, `ball_pos`, `ball_vel`). -/
structure SimState where
  hex_angle : ℝ
  ball_pos : Vec2
  ball_vel : Vec2

/-- The distance from `p` to the closest point of segment `ab`, as `main`
computes it: `dist = math.hypot(dx, dy)` with
`dx, dy = ball_pos - closest`. -/
noncomputable def edge_dist (a b p : Vec2) : ℝ :=
  let closest := closest_point_on_segment a b p
  Real.sqrt ((p.1 - closest.1) * (p.1 - closest.1) +
             (p.2 - closest.2) * (p.2 - closest.2))

/-- Wall velocity at a contact point, inline in `main`:
`wall_vel = (-angular_speed * rel_y, angular_speed * rel_x)` where
`(rel_x, rel_y) = closest - hex_center`. -/
def wall_velocity (angular_speed : ℝ) (hex_center closest : Vec2) : Vec2 :=
  (-angular_speed * (closest.2 - hex_center.2),
    angular_speed * (closest.1 - hex_center.1))

/-- One iteration of the collision loop in `main`, for the edge `(a, b)`:
detect overlap, pick the normal (with the `dist == 0` fallback and the
zero-length-edge `continue`), resolve the velocity and push the disc out
of penetration.  The state is `(ball_pos, ball_vel)`. -/
noncomputable def processEdge (P : Params) (a b : Vec2)
    (s : Vec2 × Vec2) : Vec2 × Vec2 :=
  let ball_pos := s.1
  let ball_vel := s.2
  let closest := closest_point_on_segment a b ball_pos
  let dx := ball_pos.1 - closest.1
  let dy := ball_pos.2 - closest.2
  let dist := Real.sqrt (dx * dx + dy * dy)
  if dist < P.ball_radius then
    let wall_n? : Option Vec2 :=
      if dist = 0 then
        let wall_dx := b.1 - a.1
        let wall_dy := b.2 - a.2
        let wall_length := Real.sqrt (wall_dx * wall_dx + wall_dy * wall_dy)
        if wall_length = 0 then none
        else some (-wall_dy / wall_length, wall_dx / wall_length)
      else some (dx / dist, dy / dist)
    match wall_n? with
    | none => s
    | some wall_n =>
      let wall_vel := wall_velocity P.angular_speed P.hex_center closest
      let v_rel : Vec2 := (ball_vel.1 - wall_vel.1, ball_vel.2 - wall_vel.2)
      let v_rel_new :=
        reflect_velocity P.restitution P.wall_friction ball_vel wall_n v_rel
      let new_vel : Vec2 := (v_rel_new.1 + wall_vel.1, v_rel_new.2 + wall_vel.2)
      let overlap := P.ball_radius - dist
      let new_pos : Vec2 :=
        (ball_pos.1 + wall_n.1 * overlap, ball_pos.2 + wall_n.2 * overlap)
      (new_pos, new_vel)
  else s

/-- The edge list of `main`'s collision loop:
`a = vertices[i]`, `b = vertices[(i + 1) % len(vertices)]`. -/
def edgeList (vertices : List Vec2) : List (Vec2 × Vec2) :=
  (List.range vertices.length).map fun i =>
    (vertices.getD i (0, 0), vertices.getD ((i + 1) % vertices.length) (0, 0))

/-- The whole collision loop of `main`: fold `processEdge` over the edges
in order, threading the disc state. -/
noncomputable def collisionStage (P : Params) (vertices : List Vec2)
    (s : Vec2 × Vec2) : Vec2 × Vec2 :=
  (edgeList vertices).foldl (fun st e => processEdge P e.1 e.2 st) s

/-- One tick of the main loop (physics part): advance the hexagon angle,
recompute vertices, apply gravity to the velocity, integrate the position
with the updated velocity, then run the collision loop. -/
noncomputable def tick (P : Params) (s : SimState) : SimState :=
  let hex_angle := s.hex_angle + P.angular_speed * P.dt
  let vertices := get_hexagon_vertices P.hex_center P.hex_radius hex_angle
  let ball_vel : Vec2 := (s.ball_vel.1, s.ball_vel.2 + P.gravity * P.dt)
  let ball_pos : Vec2 :=
    (s.ball_pos.1 + ball_vel.1 * P.dt, s.ball_pos.2 + ball_vel.2 * P.dt)
  let res := collisionStage P vertices (ball_pos, ball_vel)
  ⟨hex_angle, res.1, res.2⟩

/-- Stage 1 of a tick: `hex_angle += angular_speed * dt`. -/
def rotationStage (P : Params) (s : SimState) : SimState :=
  { s with hex_angle := s.hex_angle + P.angular_speed * P.dt }

/-- Stage 2 of a tick: `ball_vel[1] += gravity * dt`. -/
def gravityStage (P : Params) (s : SimState) : SimState :=
  { s with ball_vel := (s.ball_vel.1, s.ball_vel.2 + P.gravity * P.dt) }

/-- Stage 3 of a tick: `ball_pos += ball_vel * dt` with the already
updated velocity. -/
def integrateStage (P : Params) (s : SimState) : SimState :=
  { s with ball_pos :=
      (s.ball_pos.1 + s.ball_vel.1 * P.dt, s.ball_pos.2 + s.ball_vel.2 * P.dt) }

/-- Stage 4 of a tick: recompute the vertices from the current (already
advanced) angle and run the collision loop over the six edges. -/
noncomputable def collideStage (P : Params) (s : SimState) : SimState :=
  let vertices := get_hexagon_vertices P.hex_center P.hex_radius s.hex_angle
  let res := collisionStage P vertices (s.ball_pos, s.ball_vel)
  { s with ball_pos := res.1, ball_vel := res.2 }

/-- The decomposition step of the Collision Resolver as the SPEC words it
(and as the source's own comment describes it): the normal component is
the projection `(v_rel_new · n) n`, the tangential remainder is scaled by
the friction factor, and the two are recombined.  This is the refinement
target compared against `reflect_velocity`. -/
noncomputable def reflect_velocity_spec_decomposition
    (restitution wall_friction : ℝ) (ball_v wall_n v_rel : Vec2) : Vec2 :=
  let v_dot_n := v_rel.1 * wall_n.1 + v_rel.2 * wall_n.2
  if 0 ≤ v_dot_n then
    ball_v
  else
    let factor := (1 + restitution) * v_dot_n
    let v_rel_new : Vec2 :=
      (v_rel.1 - factor * wall_n.1, v_rel.2 - factor * wall_n.2)
    let vn := v_rel_new.1 * wall_n.1 + v_rel_new.2 * wall_n.2
    let normal_component : Vec2 := (vn * wall_n.1, vn * wall_n.2)
    let tangential_component : Vec2 :=
      (v_rel_new.1 - normal_component.1, v_rel_new.2 - normal_component.2)
    let tangential_component' : Vec2 :=
      (tangential_component.1 * wall_friction,
       tangential_component.2 * wall_friction)
    (normal_component.1 + tangential_component'.1,
     normal_component.2 + tangential_component'.2)

/-- Division that records the error branch: `none` exactly when the
denominator is zero. -/
noncomputable def checkedDiv (x y : ℝ) : Option ℝ :=
  if y = 0 then none else some (x / y)

/-- `closest_point_on_segment` with every division routed through
`checkedDiv`, so that a division by zero would surface as `none`. -/
noncomputable def closest_point_on_segment_checked (a b p : Vec2) :
    Option Vec2 :=
  let abx := b.1 - a.1
  let aby := b.2 - a.2
  let ab_len_sq := abx * abx + aby * aby
  if ab_len_sq = 0 then some a
  else
    (checkedDiv ((p.1 - a.1) * abx + (p.2 - a.2) * aby) ab_len_sq).bind fun t =>
      let t' := max 0 (min 1 t)
      some (a.1 + t' * abx, a.2 + t' * aby)

/-- The collision-loop body with every division routed through
`checkedDiv`.  The outer `Option` is the error monad (a `none` would mean
a division by zero was reached); the inner `Option Vec2` in the normal
computation distinguishes the source's `continue` on a zero-length edge,
which is a skip, not an error. -/
noncomputable def processEdge_checked (P : Params) (a b : Vec2)
    (s : Vec2 × Vec2) : Option (Vec2 × Vec2) :=
  (closest_point_on_segment_checked a b s.1).bind fun closest =>
  let ball_pos := s.1
  let ball_vel := s.2
  let dx := ball_pos.1 - closest.1
  let dy := ball_pos.2 - closest.2
  let dist := Real.sqrt (dx * dx + dy * dy)
  if dist < P.ball_radius then
    (if dist = 0 then
      let wall_dx := b.1 - a.1
      let wall_dy := b.2 - a.2
      let wall_length := Real.sqrt (wall_dx * wall_dx + wall_dy * wall_dy)
      if wall_length = 0 then some none
      else
        (checkedDiv (-wall_dy) wall_length).bind fun nx =>
        (checkedDiv wall_dx wall_length).bind fun ny =>
        some (some ((nx, ny) : Vec2))
    else
      (checkedDiv dx dist).bind fun nx =>
      (checkedDiv dy dist).bind fun ny =>
      some (some ((nx, ny) : Vec2))).bind fun wall_n? =>
    match wall_n? with
    | none => some s
    | some wall_n =>
      let wall_vel := wall_velocity P.angular_speed P.hex_center closest
      let v_rel : Vec2 := (ball_vel.1 - wall_vel.1, ball_vel.2 - wall_vel.2)
      let v_rel_new :=
        reflect_velocity P.restitution P.wall_friction ball_vel wall_n v_rel
      let new_vel : Vec2 := (v_rel_new.1 + wall_vel.1, v_rel_new.2 + wall_vel.2)
      let overlap := P.ball_radius - dist
      let new_pos : Vec2 :=
        (ball_pos.1 + wall_n.1 * overlap, ball_pos.2 + wall_n.2 * overlap)
      some (new_pos, new_vel)
  else some s

/-- The collision loop with checked divisions, propagating a potential
error branch through the fold. -/
noncomputable def collisionStage_checked (P : Params) (vertices : List Vec2)
    (s : Vec2 × Vec2) : Option (Vec2 × Vec2) :=
  (edgeList vertices).foldl
    (fun st? e => st?.bind fun st => processEdge_checked P e.1 e.2 st) (some s)

/-- A whole tick with checked divisions. -/
noncomputable def tick_checked (P : Params) (s : SimState) : Option SimState :=
  let hex_angle := s.hex_angle + P.angular_speed * P.dt
  let vertices := get_hexagon_vertices P.hex_center P.hex_radius hex_angle
  let ball_vel : Vec2 := (s.ball_vel.1, s.ball_vel.2 + P.gravity * P.dt)
  let ball_pos : Vec2 :=
    (s.ball_pos.1 + ball_vel.1 * P.dt, s.ball_pos.2 + ball_vel.2 * P.dt)
  (collisionStage_checked P vertices (ball_pos, ball_vel)).map fun res =>
    ⟨hex_angle, res.1, res.2⟩

/-! ## Helper lemmas -/

/-- On a detected, non-degenerate contact (`dist < ball_radius`,
`dist ≠ 0`), `processEdge` reduces to: reflect the relative velocity, add
the wall velocity back, and push the position out along the normal. -/
theorem processEdge_contact (P : Params) (a b pos vel c : Vec2) (d : ℝ)
    (hc : closest_point_on_segment a b pos = c)
    (hd : Real.sqrt ((pos.1 - c.1) * (pos.1 - c.1) +
            (pos.2 - c.2) * (pos.2 - c.2)) = d)
    (h1 : d < P.ball_radius) (h2 : d ≠ 0) :
    processEdge P a b (pos, vel) =
      ((pos.1 + (pos.1 - c.1) / d * (P.ball_radius - d),
        pos.2 + (pos.2 - c.2) / d * (P.ball_radius - d)),
       ((reflect_velocity P.restitution P.wall_friction vel
           ((pos.1 - c.1) / d, (pos.2 - c.2) / d)
           (vel.1 - (wall_velocity P.angular_speed P.hex_center c).1,
            vel.2 - (wall_velocity P.angular_speed P.hex_center c).2)).1 +
          (wall_velocity P.angular_speed P.hex_center c).1,
        (reflect_velocity P.restitution P.wall_friction vel
           ((pos.1 - c.1) / d, (pos.2 - c.2) / d)
           (vel.1 - (wall_velocity P.angular_speed P.hex_center c).1,
            vel.2 - (wall_velocity P.angular_speed P.hex_center c).2)).2 +
          (wall_velocity P.angular_speed P.hex_center c).2)) := by
  simp only [processEdge, hc, hd]
  rw [if_pos h1, if_neg h2]

/-- With no detected overlap on an edge, `processEdge` is the identity. -/
theorem processEdge_no_contact (P : Params) (a b pos vel : Vec2)
    (h : ¬ edge_dist a b pos < P.ball_radius) :
    processEdge P a b (pos, vel) = (pos, vel) := by
  simp only [edge_dist] at h
  simp only [processEdge]
  rw [if_neg h]

/-- Evaluate a square root by exhibiting the square. -/
theorem sqrt_eq_of_sq (x y : ℝ) (hy : 0 ≤ y) (h : y * y = x) :
    Real.sqrt x = y := by
  rw [← h]
  exact Real.sqrt_mul_self hy

/-- `edge_dist` of the worked contact example: disc at `(0, -9)` against
the wall from `(-10, -10)` to `(10, -10)` has distance `1` to the wall
(closest point `(0, -10)`). -/
theorem edge_dist_example :
    closest_point_on_segment (-10, -10) (10, -10) (0, -9) = ((0 : ℝ), (-10 : ℝ)) ∧
    edge_dist (-10, -10) (10, -10) (0, -9) = 1 := by
  have hc : closest_point_on_segment (-10, -10) (10, -10) (0, -9) =
      ((0 : ℝ), (-10 : ℝ)) := by
    norm_num [closest_point_on_segment, min_def, max_def]
  refine ⟨hc, ?_⟩
  rw [edge_dist]
  norm_num [hc, Real.sqrt_one]

/-- Folding the collision loop over edges none of which overlaps the disc
leaves the state unchanged. -/
theorem foldl_processEdge_id (P : Params) (l : List (Vec2 × Vec2))
    (pos vel : Vec2)
    (h : ∀ e ∈ l, ¬ edge_dist e.1 e.2 pos < P.ball_radius) :
    l.foldl (fun st e => processEdge P e.1 e.2 st) (pos, vel) = (pos, vel) := by
  induction l with
  | nil => rfl
  | cons e t ih =>
    rw [List.foldl_cons]
    rw [show processEdge P e.1 e.2 (pos, vel) = (pos, vel) from
      processEdge_no_contact P e.1 e.2 pos vel (h e (List.mem_cons_self e t))]
    exact ih fun e' he' => h e' (List.mem_cons_of_mem e he')

/-- Core algebra of the positional correction: pushing by
`(radius - d)` along the unit vector `(dx / d, dy / d)` lands at distance
exactly `radius` from the contact point. -/
theorem tangent_core (r d dx dy : ℝ)
    (hd : Real.sqrt (dx * dx + dy * dy) = d) (h2 : 0 < d) (h1 : d < r) :
    vector_length (dx + dx / d * (r - d), dy + dy / d * (r - d)) = r := by
  have hdne : d ≠ 0 := ne_of_gt h2
  have e1 : dx + dx / d * (r - d) = dx * (r / d) := by field_simp; ring
  have e2 : dy + dy / d * (r - d) = dy * (r / d) := by field_simp; ring
  rw [vector_length]
  simp only [e1, e2]
  have e3 : dx * (r / d) * (dx * (r / d)) + dy * (r / d) * (dy * (r / d)) =
      (r / d) ^ 2 * (dx * dx + dy * dy) := by ring
  rw [e3, Real.sqrt_mul (sq_nonneg _),
    Real.sqrt_sq (le_of_lt (div_pos (h2.trans h1) h2)), hd,
    div_mul_cancel₀ _ hdne]

/-- The `i`-th produced vertex, in the source's own angle form
`base_angle + i * 2 * pi / hex_sides`. -/
theorem get_hexagon_vertices_getD (c : Vec2) (r θ : ℝ) (i : ℕ) (h : i < 6) :
    (get_hexagon_vertices c r θ).getD i (0, 0) =
      (c.1 + r * Real.cos (θ + i * 2 * Real.pi / 6),
       c.2 + r * Real.sin (θ + i * 2 * Real.pi / 6)) := by
  interval_cases i <;> rfl

/-- Length of a vector given in polar form. -/
theorem vector_length_polar (r α : ℝ) (hr : 0 ≤ r) :
    vector_length (r * Real.cos α, r * Real.sin α) = r := by
  rw [vector_length]
  have e : r * Real.cos α * (r * Real.cos α) +
      r * Real.sin α * (r * Real.sin α) =
      r ^ 2 * (Real.sin α ^ 2 + Real.cos α ^ 2) := by ring
  rw [e, Real.sin_sq_add_cos_sq, mul_one, Real.sqrt_sq hr]

/-! ## Claims -/

/-- Claim C4: each tick updates in this exact order: hexagon angle by
`angular_speed * dt`, vertex recomputation, gravity into the y-velocity,
position by the updated velocity times `dt`, then the 6 edges checked
sequentially with each resolution applied before the next edge (the fold
in `collisionStage`). -/
theorem tick_stage_order (P : Params) (s : SimState) :
    tick P s =
      collideStage P (integrateStage P (gravityStage P (rotationStage P s))) ∧
    (edgeList (get_hexagon_vertices P.hex_center P.hex_radius
        (s.hex_angle + P.angular_speed * P.dt))).length = 6 ∧
    ∀ (vs : List Vec2) (st : Vec2 × Vec2),
      collisionStage P vs st =
        (edgeList vs).foldl (fun st' e => processEdge P e.1 e.2 st') st := by
  exact ⟨rfl, rfl, fun vs st => rfl⟩

/-- Claim C5: the Geometry Provider returns exactly 6 vertices; vertex
`i` is at angle `θ + i * (2π/6)` and distance `r` from the center; all
vertices are equidistant (`r`) from the center; and each consecutive
vertex offset is the previous one rotated by exactly 60° (π/3). -/
theorem hexagon_vertices_regular (c : Vec2) (r θ : ℝ) (hr : 0 ≤ r) :
    (get_hexagon_vertices c r θ).length = 6 ∧
    (∀ i : ℕ, i < 6 →
      (get_hexagon_vertices c r θ).getD i (0, 0) =
        (c.1 + r * Real.cos (θ + i * (2 * Real.pi / 6)),
         c.2 + r * Real.sin (θ + i * (2 * Real.pi / 6)))) ∧
    (∀ i : ℕ, i < 6 →
      vector_length
        (((get_hexagon_vertices c r θ).getD i (0, 0)).1 - c.1,
         ((get_hexagon_vertices c r θ).getD i (0, 0)).2 - c.2) = r) ∧
    (∀ i : ℕ, i < 6 →
      (((get_hexagon_vertices c r θ).getD ((i + 1) % 6) (0, 0)).1 - c.1,
       ((get_hexagon_vertices c r θ).getD ((i + 1) % 6) (0, 0)).2 - c.2) =
        ((((get_hexagon_vertices c r θ).getD i (0, 0)).1 - c.1) *
            Real.cos (Real.pi / 3) -
           (((get_hexagon_vertices c r θ).getD i (0, 0)).2 - c.2) *
            Real.sin (Real.pi / 3),
         (((get_hexagon_vertices c r θ).getD i (0, 0)).1 - c.1) *
            Real.sin (Real.pi / 3) +
           (((get_hexagon_vertices c r θ).getD i (0, 0)).2 - c.2) *
            Real.cos (Real.pi / 3))) := by
  refine ⟨rfl, ?_, ?_, ?_⟩
  · intro i hi
    rw [get_hexagon_vertices_getD c r θ i hi,
      show θ + (i : ℝ) * 2 * Real.pi / 6 = θ + (i : ℝ) * (2 * Real.pi / 6) by
        ring]
  · intro i hi
    rw [get_hexagon_vertices_getD c r θ i hi]
    dsimp only
    have e1 : c.1 + r * Real.cos (θ + (i : ℝ) * 2 * Real.pi / 6) - c.1 =
        r * Real.cos (θ + (i : ℝ) * 2 * Real.pi / 6) := by ring
    have e2 : c.2 + r * Real.sin (θ + (i : ℝ) * 2 * Real.pi / 6) - c.2 =
        r * Real.sin (θ + (i : ℝ) * 2 * Real.pi / 6) := by ring
    rw [e1, e2]
    exact vector_length_polar r _ hr
  · intro i hi
    by_cases h5 : i = 5
    · subst h5
      rw [show (5 + 1) % 6 = 0 from rfl,
        get_hexagon_vertices_getD c r θ 0 (by norm_num),
        get_hexagon_vertices_getD c r θ 5 (by norm_num)]
      dsimp only
      rw [show θ + ((0 : ℕ) : ℝ) * 2 * Real.pi / 6 = θ by push_cast; ring]
      have hc5 : Real.cos (θ + ((5 : ℕ) : ℝ) * 2 * Real.pi / 6 + Real.pi / 3) =
          Real.cos θ := by
        rw [show θ + ((5 : ℕ) : ℝ) * 2 * Real.pi / 6 + Real.pi / 3 =
            θ + 2 * Real.pi by push_cast; ring]
        exact Real.cos_add_two_pi θ
      have hs5 : Real.sin (θ + ((5 : ℕ) : ℝ) * 2 * Real.pi / 6 + Real.pi / 3) =
          Real.sin θ := by
        rw [show θ + ((5 : ℕ) : ℝ) * 2 * Real.pi / 6 + Real.pi / 3 =
            θ + 2 * Real.pi by push_cast; ring]
        exact Real.sin_add_two_pi θ
      rw [← hc5, ← hs5,
        Real.cos_add (θ + ((5 : ℕ) : ℝ) * 2 * Real.pi / 6) (Real.pi / 3),
        Real.sin_add (θ + ((5 : ℕ) : ℝ) * 2 * Real.pi / 6) (Real.pi / 3),
        Prod.mk.injEq]
      exact ⟨by ring, by ring⟩
    · have hmod : (i + 1) % 6 = i + 1 := Nat.mod_eq_of_lt (by omega)
      rw [hmod, get_hexagon_vertices_getD c r θ (i + 1) (by omega),
        get_hexagon_vertices_getD c r θ i hi]
      dsimp only
      rw [show θ + ((i + 1 : ℕ) : ℝ) * 2 * Real.pi / 6 =
          θ + (i : ℝ) * 2 * Real.pi / 6 + Real.pi / 3 by push_cast; ring]
      rw [Real.cos_add (θ + (i : ℝ) * 2 * Real.pi / 6) (Real.pi / 3),
        Real.sin_add (θ + (i : ℝ) * 2 * Real.pi / 6) (Real.pi / 3),
        Prod.mk.injEq]
      exact ⟨by ring, by ring⟩

/-- Witness for C5: the unit hexagon at the origin with no rotation has
6 vertices. -/
theorem hexagon_vertices_regular_witness :
    (get_hexagon_vertices (0, 0) 1 0).length = 6 :=
  (hexagon_vertices_regular (0, 0) 1 0 (by norm_num)).1

/-- Claim C6: `closest_point_on_segment` returns
`a + clamp(t, 0, 1) * (b - a)` with `t` the scalar projection parameter
of `p`; for a coincident segment it returns `a` without dividing; and the
three concrete evaluations of the spec hold. -/
theorem closest_point_on_segment_spec :
    (∀ a b p : Vec2, a = b → closest_point_on_segment a b p = a) ∧
    (∀ a b p : Vec2, a ≠ b →
      closest_point_on_segment a b p =
        (a.1 + max 0 (min 1 (((p.1 - a.1) * (b.1 - a.1) + (p.2 - a.2) * (b.2 - a.2)) /
              ((b.1 - a.1) * (b.1 - a.1) + (b.2 - a.2) * (b.2 - a.2)))) * (b.1 - a.1),
         a.2 + max 0 (min 1 (((p.1 - a.1) * (b.1 - a.1) + (p.2 - a.2) * (b.2 - a.2)) /
              ((b.1 - a.1) * (b.1 - a.1) + (b.2 - a.2) * (b.2 - a.2)))) * (b.2 - a.2))) ∧
    closest_point_on_segment (0, 0) (10, 0) (5, 5) = (5, 0) ∧
    closest_point_on_segment (0, 0) (10, 0) (-3, 0) = (0, 0) ∧
    ∀ p : Vec2, closest_point_on_segment (2, 2) (2, 2) p = (2, 2) := by
  refine ⟨?_, ?_, ?_, ?_, ?_⟩
  · intro a b p h
    subst h
    simp [closest_point_on_segment]
  · intro a b p h
    have hne : ¬ ((b.1 - a.1) * (b.1 - a.1) + (b.2 - a.2) * (b.2 - a.2) = 0) := by
      intro h0
      rcases (add_eq_zero_iff_of_nonneg (mul_self_nonneg _) (mul_self_nonneg _)).mp h0
        with ⟨h01, h02⟩
      exact h (Prod.ext (by linarith [mul_self_eq_zero.mp h01]) (by nlinarith [mul_self_eq_zero.mp h02])).symm
    simp only [closest_point_on_segment]
    rw [if_neg hne]
  · norm_num [closest_point_on_segment, min_def, max_def]
  · norm_num [closest_point_on_segment, min_def, max_def]
  · intro p
    simp [closest_point_on_segment]

/-- Witness for C6: the degenerate-segment case applied at a concrete
point. -/
theorem closest_point_on_segment_spec_witness :
    closest_point_on_segment (2, 2) (2, 2) (9, 1) = (2, 2) :=
  closest_point_on_segment_spec.1 (2, 2) (2, 2) (9, 1) rfl

/-- Claim C7: at every detected contact the wall velocity used by the
resolver is `(-ω * r.y, ω * r.x)` with `r = closest - hex_center`, and the
resolved velocity is exactly the reflected relative velocity plus that
wall velocity. -/
theorem wall_velocity_at_contact (P : Params) (a b pos vel : Vec2)
    (h1 : edge_dist a b pos < P.ball_radius)
    (h2 : edge_dist a b pos ≠ 0) :
    wall_velocity P.angular_speed P.hex_center (closest_point_on_segment a b pos) =
      (-P.angular_speed * ((closest_point_on_segment a b pos).2 - P.hex_center.2),
        P.angular_speed * ((closest_point_on_segment a b pos).1 - P.hex_center.1)) ∧
    (processEdge P a b (pos, vel)).2 =
      ((reflect_velocity P.restitution P.wall_friction vel
          ((pos.1 - (closest_point_on_segment a b pos).1) / edge_dist a b pos,
           (pos.2 - (closest_point_on_segment a b pos).2) / edge_dist a b pos)
          (vel.1 - (wall_velocity P.angular_speed P.hex_center
              (closest_point_on_segment a b pos)).1,
           vel.2 - (wall_velocity P.angular_speed P.hex_center
              (closest_point_on_segment a b pos)).2)).1 +
        (wall_velocity P.angular_speed P.hex_center
            (closest_point_on_segment a b pos)).1,
       (reflect_velocity P.restitution P.wall_friction vel
          ((pos.1 - (closest_point_on_segment a b pos).1) / edge_dist a b pos,
           (pos.2 - (closest_point_on_segment a b pos).2) / edge_dist a b pos)
          (vel.1 - (wall_velocity P.angular_speed P.hex_center
              (closest_point_on_segment a b pos)).1,
           vel.2 - (wall_velocity P.angular_speed P.hex_center
              (closest_point_on_segment a b pos)).2)).2 +
        (wall_velocity P.angular_speed P.hex_center
            (closest_point_on_segment a b pos)).2) := by
  refine ⟨rfl, ?_⟩
  rw [processEdge_contact P a b pos vel (closest_point_on_segment a b pos)
    (edge_dist a b pos) rfl rfl h1 h2]

/-- Claim C1 (refuted by the code): at a detected contact whose relative
velocity satisfies `v_rel · n = 0 ≥ 0`, with angular speed `1`, the
collision stage CHANGES the world-frame velocity from `(0, 0)` to
`(10, 0)`: the separating branch of `reflect_velocity` returns the
world-frame `ball_v`, which `main` then treats as a relative velocity and
adds `wall_vel` back onto. -/
theorem separating_contact_changes_velocity :
    edge_dist (-10, -10) (10, -10) (0, -9) < 2 ∧
    0 ≤ ((0 : ℝ) - (wall_velocity 1 (0, 0) (0, -10)).1) *
          (((0 : ℝ) - 0) / edge_dist (-10, -10) (10, -10) (0, -9)) +
        ((0 : ℝ) - (wall_velocity 1 (0, 0) (0, -10)).2) *
          (((-9 : ℝ) - (-10)) / edge_dist (-10, -10) (10, -10) (0, -9)) ∧
    (processEdge ⟨(0, 0), 250, 1, 2, 400, 9/10, 49/50, 1/60⟩
        (-10, -10) (10, -10) ((0, -9), (0, 0))).2 = ((10 : ℝ), (0 : ℝ)) ∧
    ((10 : ℝ), (0 : ℝ)) ≠ ((0 : ℝ), (0 : ℝ)) := by
  obtain ⟨hc, hd⟩ := edge_dist_example
  refine ⟨by rw [hd]; norm_num, by rw [hd]; norm_num [wall_velocity], ?_, by
    norm_num [Prod.ext_iff]⟩
  rw [processEdge_contact ⟨(0, 0), 250, 1, 2, 400, 9/10, 49/50, 1/60⟩
    (-10, -10) (10, -10) (0, -9) (0, 0) (0, -10) 1 hc
    (sqrt_eq_of_sq _ 1 (by norm_num) (by norm_num)) (by norm_num) (by norm_num)]
  norm_num [reflect_velocity, wall_velocity]

/-- Claim C2 (refuted by the code): the friction step of
`reflect_velocity` does NOT use the projection `(v_rel_new · n) n` as its
normal component; it uses the componentwise product
`(v_rel_new.x * n.x, v_rel_new.y * n.y)`.  At `v_rel = (1, 1)`,
`n = (0, -1)` (a contact moving into the wall, `v_rel · n = -1 < 0`) the
code returns `(49/50, -108/125)` while the spec's decomposition gives
`(49/50, -9/10)`. -/
theorem normal_decomposition_mismatch :
    ((1 : ℝ) * 0 + 1 * (-1) < 0) ∧
    reflect_velocity (9/10) (49/50) (3, 4) (0, -1) (1, 1) = (49/50, -108/125) ∧
    reflect_velocity_spec_decomposition (9/10) (49/50) (3, 4) (0, -1) (1, 1) =
      (49/50, -9/10) ∧
    reflect_velocity (9/10) (49/50) (3, 4) (0, -1) (1, 1) ≠
      reflect_velocity_spec_decomposition (9/10) (49/50) (3, 4) (0, -1) (1, 1) := by
  refine ⟨by norm_num, ?_, ?_, ?_⟩
  · norm_num [reflect_velocity, Prod.ext_iff]
  · norm_num [reflect_velocity_spec_decomposition, Prod.ext_iff]
  · norm_num [reflect_velocity, reflect_velocity_spec_decomposition, Prod.ext_iff]

/-- Claim C3 (refuted by the code): a disc falling straight down at speed
`10` onto a stationary horizontal wall with outward normal `(0, -1)`
rebounds with normal speed `216/25 = 8.64`, not
`restitution * 10 = 9`: the componentwise decomposition bug leaks the
friction factor into the normal component
(`outgoing = (2 * wall_friction - 1) * restitution * incoming`). -/
theorem restitution_bound_violated :
    (processEdge ⟨(0, 0), 250, 0, 1, 400, 9/10, 49/50, 1/60⟩
        (-10, 0) (10, 0) ((0, -1/2), (0, 10))).2 = ((0 : ℝ), -216/25) ∧
    ((0 : ℝ) * 0 + (-216/25 : ℝ) * (-1)) ≠ (9/10 : ℝ) * 10 := by
  have hc : closest_point_on_segment (-10, 0) (10, 0) (0, -1/2) =
      ((0 : ℝ), (0 : ℝ)) := by
    norm_num [closest_point_on_segment, min_def, max_def]
  refine ⟨?_, by norm_num⟩
  rw [processEdge_contact ⟨(0, 0), 250, 0, 1, 400, 9/10, 49/50, 1/60⟩
    (-10, 0) (10, 0) (0, -1/2) (0, 10) (0, 0) (1/2) hc
    (sqrt_eq_of_sq _ (1/2) (by norm_num) (by norm_num)) (by norm_num) (by norm_num)]
  norm_num [reflect_velocity, wall_velocity]

/-- Witness for C7: the worked contact example (wall below the disc,
rotating hexagon centred at the origin). -/
theorem wall_velocity_at_contact_witness :
    wall_velocity 1 (0, 0) (closest_point_on_segment (-10, -10) (10, -10) (0, -9)) =
      (-1 * ((closest_point_on_segment (-10, -10) (10, -10) (0, -9)).2 - (0 : ℝ)),
        1 * ((closest_point_on_segment (-10, -10) (10, -10) (0, -9)).1 - (0 : ℝ))) :=
  (wall_velocity_at_contact ⟨(0, 0), 250, 1, 2, 400, 9/10, 49/50, 1/60⟩
      (-10, -10) (10, -10) (0, -9) (0, 0)
      (by rw [edge_dist_example.2]; norm_num)
      (by rw [edge_dist_example.2]; norm_num)).1

/-- Claim C8: when no edge overlaps the disc (`dist < ball_radius` fails
for every edge at the moment it is checked — and since nothing changes,
at the initial position), the collision stage is the identity on the
disc's position and velocity. -/
theorem collision_stage_no_contact_noop (P : Params) (vertices : List Vec2)
    (pos vel : Vec2)
    (h : ∀ e ∈ edgeList vertices, ¬ edge_dist e.1 e.2 pos < P.ball_radius) :
    collisionStage P vertices (pos, vel) = (pos, vel) :=
  foldl_processEdge_id P (edgeList vertices) pos vel h

/-- Witness for C8: a far-away disc against a degenerate one-vertex
polygon (distance 5, radius 1). -/
theorem collision_stage_no_contact_noop_witness :
    collisionStage ⟨(0, 0), 250, 1, 1, 400, 9/10, 49/50, 1/60⟩ [(0, 0)]
      ((3, 4), (1, 2)) = ((3, 4), (1, 2)) :=
  collision_stage_no_contact_noop ⟨(0, 0), 250, 1, 1, 400, 9/10, 49/50, 1/60⟩
    [(0, 0)] (3, 4) (1, 2) (by
      intro e he
      have he' : e = (((0 : ℝ), (0 : ℝ)), ((0 : ℝ), (0 : ℝ))) := by
        simpa [edgeList] using he
      subst he'
      have hc : closest_point_on_segment ((0 : ℝ), (0 : ℝ)) (0, 0) (3, 4) =
          ((0 : ℝ), (0 : ℝ)) := by
        simp [closest_point_on_segment]
      simp only [edge_dist, hc]
      rw [sqrt_eq_of_sq _ 5 (by norm_num) (by norm_num)]
      norm_num)

/-- The checked Segment Projector never reaches its error branch: it
agrees with the total embedding. -/
theorem closest_point_on_segment_checked_eq (a b p : Vec2) :
    closest_point_on_segment_checked a b p =
      some (closest_point_on_segment a b p) := by
  simp only [closest_point_on_segment_checked, closest_point_on_segment,
    checkedDiv]
  by_cases h : (b.1 - a.1) * (b.1 - a.1) + (b.2 - a.2) * (b.2 - a.2) = 0
  · rw [if_pos h, if_pos h]
  · rw [if_neg h, if_neg h, if_neg h]
    rfl

/-- The checked collision-loop body never reaches its error branch. -/
theorem processEdge_checked_eq (P : Params) (a b : Vec2) (s : Vec2 × Vec2) :
    processEdge_checked P a b s = some (processEdge P a b s) := by
  simp only [processEdge_checked, processEdge,
    closest_point_on_segment_checked_eq, checkedDiv, Option.some_bind]
  by_cases h1 : Real.sqrt
      ((s.1.1 - (closest_point_on_segment a b s.1).1) *
         (s.1.1 - (closest_point_on_segment a b s.1).1) +
       (s.1.2 - (closest_point_on_segment a b s.1).2) *
         (s.1.2 - (closest_point_on_segment a b s.1).2)) < P.ball_radius
  · rw [if_pos h1, if_pos h1]
    by_cases h2 : Real.sqrt
        ((s.1.1 - (closest_point_on_segment a b s.1).1) *
           (s.1.1 - (closest_point_on_segment a b s.1).1) +
         (s.1.2 - (closest_point_on_segment a b s.1).2) *
           (s.1.2 - (closest_point_on_segment a b s.1).2)) = 0
    · rw [if_pos h2, if_pos h2]
      by_cases h3 : Real.sqrt ((b.1 - a.1) * (b.1 - a.1) +
          (b.2 - a.2) * (b.2 - a.2)) = 0
      · rw [if_pos h3, if_pos h3]
        rfl
      · rw [if_neg h3, if_neg h3, if_neg h3, if_neg h3]
        rfl
    · rw [if_neg h2, if_neg h2, if_neg h2, if_neg h2]
      rfl
  · rw [if_neg h1, if_neg h1]

/-- The checked collision loop never reaches an error branch. -/
theorem foldl_checked_eq (P : Params) (l : List (Vec2 × Vec2))
    (s : Vec2 × Vec2) :
    l.foldl (fun st? e => st?.bind fun st => processEdge_checked P e.1 e.2 st)
        (some s) =
      some (l.foldl (fun st e => processEdge P e.1 e.2 st) s) := by
  induction l generalizing s with
  | nil => rfl
  | cons e t ih =>
    rw [List.foldl_cons, List.foldl_cons]
    rw [show ((some s).bind fun st => processEdge_checked P e.1 e.2 st) =
        some (processEdge P e.1 e.2 s) from processEdge_checked_eq P e.1 e.2 s]
    exact ih _

/-- Claim C9: a simulation tick is total — with every division routed
through `checkedDiv` and the degeneracies (`zero-length edge`,
`dist = 0`) handled by the source's skip/fallback, no error branch is
reachable: the checked tick always returns `some` and agrees with the
total embedding, and likewise for each collision-loop body. -/
theorem tick_total (P : Params) (s : SimState) (a b : Vec2)
    (st : Vec2 × Vec2) :
    tick_checked P s = some (tick P s) ∧
    processEdge_checked P a b st = some (processEdge P a b st) ∧
    closest_point_on_segment_checked a b st.1 =
      some (closest_point_on_segment a b st.1) := by
  refine ⟨?_, processEdge_checked_eq P a b st,
    closest_point_on_segment_checked_eq a b st.1⟩
  simp only [tick_checked, tick, collisionStage_checked, collisionStage,
    foldl_checked_eq]
  rfl

/-- Claim C10: for a contact resolved with `0 < dist < ball_radius`, the
corrected position is at distance exactly `ball_radius` from the contact
point computed before the push. -/
theorem penetration_correction_tangent (P : Params) (a b pos vel : Vec2)
    (h1 : edge_dist a b pos < P.ball_radius)
    (h2 : 0 < edge_dist a b pos) :
    vector_length
      ((processEdge P a b (pos, vel)).1.1 -
         (closest_point_on_segment a b pos).1,
       (processEdge P a b (pos, vel)).1.2 -
         (closest_point_on_segment a b pos).2) = P.ball_radius := by
  rw [processEdge_contact P a b pos vel (closest_point_on_segment a b pos)
    (edge_dist a b pos) rfl rfl h1 (ne_of_gt h2)]
  have e1 : pos.1 + (pos.1 - (closest_point_on_segment a b pos).1) /
        edge_dist a b pos * (P.ball_radius - edge_dist a b pos) -
        (closest_point_on_segment a b pos).1 =
      (pos.1 - (closest_point_on_segment a b pos).1) +
        (pos.1 - (closest_point_on_segment a b pos).1) /
          edge_dist a b pos * (P.ball_radius - edge_dist a b pos) := by
    ring
  have e2 : pos.2 + (pos.2 - (closest_point_on_segment a b pos).2) /
        edge_dist a b pos * (P.ball_radius - edge_dist a b pos) -
        (closest_point_on_segment a b pos).2 =
      (pos.2 - (closest_point_on_segment a b pos).2) +
        (pos.2 - (closest_point_on_segment a b pos).2) /
          edge_dist a b pos * (P.ball_radius - edge_dist a b pos) := by
    ring
  simp only [e1, e2]
  exact tangent_core P.ball_radius (edge_dist a b pos)
    (pos.1 - (closest_point_on_segment a b pos).1)
    (pos.2 - (closest_point_on_segment a b pos).2) rfl h2 h1

/-- Witness for C10: the worked contact example, corrected position
`(0, -8)` at distance `2 = ball_radius` from the contact `(0, -10)`. -/
theorem penetration_correction_tangent_witness :
    vector_length
      ((processEdge ⟨(0, 0), 250, 1, 2, 400, 9/10, 49/50, 1/60⟩
          (-10, -10) (10, -10) ((0, -9), (5, 7))).1.1 -
         (closest_point_on_segment (-10, -10) (10, -10) (0, -9)).1,
       (processEdge ⟨(0, 0), 250, 1, 2, 400, 9/10, 49/50, 1/60⟩
          (-10, -10) (10, -10) ((0, -9), (5, 7))).1.2 -
         (closest_point_on_segment (-10, -10) (10, -10) (0, -9)).2) = 2 :=
  penetration_correction_tangent ⟨(0, 0), 250, 1, 2, 400, 9/10, 49/50, 1/60⟩
    (-10, -10) (10, -10) (0, -9) (5, 7)
    (by rw [edge_dist_example.2]; norm_num)
    (by rw [edge_dist_example.2]; norm_num)

end BouncingBall
